import Mathlib

/-!
Shallow embedding of the maturity-assessment core (categories.py,
data_manager.py, assessment_history.py) and proofs about its
specification.

Modelling conventions:
* Python runtime values that can appear as answers or table cells are
  modelled by `PyVal` (strings, ints, floats as exact rationals, and the
  float NaN produced by pandas for missing cells).  Python float
  arithmetic is modelled exactly over `ℚ`; every number manipulated by
  this program is small enough that no rounding behaviour is relevant to
  the claims.
* A Python dict used as a response set is modelled as an association
  list with first-match lookup (`List.lookup`); dicts in this program
  are only read through key lookup and insertion of fresh keys, for
  which this is faithful.
* A raised exception is modelled as `none` / a `false` success flag,
  matching the `try/except` structure of `import_from_csv`.
-/

/-- Python values appearing as answers or parsed CSV cells: strings,
ints, floats (exact rationals) and the float NaN that pandas produces
for missing cells.  Python `==` on these values is `PyVal` equality:
values of different shapes are never equal, and NaN compares unequal to
every string. -/
inductive PyVal where
  | str (s : String)
  | int (n : Int)
  | float (q : ℚ)
  | nan
deriving DecidableEq, Repr

/-- Python `int(v)`: `none` models a raised `ValueError`/`TypeError`.
Integer strings parse, ints pass through, floats truncate toward zero,
and `int(nan)` raises. -/
def pyInt : PyVal → Option Int
  | PyVal.str s => s.toInt?
  | PyVal.int n => some n
  | PyVal.float q => some (if 0 ≤ q then Int.floor q else Int.ceil q)
  | PyVal.nan => none

/-- Question type, the `"type"` field in categories.py. -/
inductive QType where
  | likert
  | binary
deriving DecidableEq, Repr, Inhabited

/-- A question from categories.py.  The `weight` and `maturity_hints`
fields are omitted: `weight` is never read by any scoring code and the
hints are display-only text. -/
structure Question where
  id : String
  text : String
  qtype : QType
deriving DecidableEq, Repr, Inhabited

/-- A category from categories.py.  The `description` field is
display-only and omitted. -/
structure Category where
  name : String
  questions : List Question
deriving DecidableEq, Repr, Inhabited

/-- The static catalog, `CATEGORIES` in categories.py, as an ordered
association list (Python dicts preserve insertion order). -/
def CATEGORIES : List (String × Category) :=
  [ ("people",
     { name := "People",
       questions :=
         [ { id := "p1",
             text := "How well does the organization develop employee skills?",
             qtype := QType.likert },
           { id := "p2",
             text := "How effective is knowledge sharing across teams?",
             qtype := QType.likert },
           { id := "p3",
             text := "How would you rate leadership support for innovation?",
             qtype := QType.likert },
           { id := "p4",
             text := "Does the organization have clear career progression paths?",
             qtype := QType.binary },
           { id := "p5",
             text := "How engaged are employees in continuous improvement?",
             qtype := QType.likert } ] }),
    ("process",
     { name := "Process",
       questions :=
         [ { id := "pr1",
             text := "How well are processes documented and standardized?",
             qtype := QType.likert },
           { id := "pr2",
             text := "To what extent are process improvements implemented systematically?",
             qtype := QType.likert },
           { id := "pr3",
             text := "How effective is the feedback loop for process adjustments?",
             qtype := QType.likert },
           { id := "pr4",
             text := "Does the organization use metrics to monitor process effectiveness?",
             qtype := QType.binary },
           { id := "pr5",
             text := "How well are processes aligned with business objectives?",
             qtype := QType.likert } ] }),
    ("technology",
     { name := "Technology Adoption",
       questions :=
         [ { id := "t1",
             text := "How advanced is the technology infrastructure?",
             qtype := QType.likert },
           { id := "t2",
             text := "To what extent are emerging technologies evaluated and adopted?",
             qtype := QType.likert },
           { id := "t3",
             text := "How well does the technology integrate across systems?",
             qtype := QType.likert },
           { id := "t4",
             text := "Does the organization have a technology roadmap?",
             qtype := QType.binary },
           { id := "t5",
             text := "How effectively are technology investments aligned with business needs?",
             qtype := QType.likert } ] }),
    ("governance",
     { name := "Governance",
       questions :=
         [ { id := "g1",
             text := "How clear are the organization's governance policies?",
             qtype := QType.likert },
           { id := "g2",
             text := "To what extent is governance integrated into daily operations?",
             qtype := QType.likert },
           { id := "g3",
             text := "How effective is risk management?",
             qtype := QType.likert },
           { id := "g4",
             text := "Does the organization have a formal compliance program?",
             qtype := QType.binary },
           { id := "g5",
             text := "How well are governance responsibilities communicated and understood?",
             qtype := QType.likert } ] }),
    ("data",
     { name := "Data Management",
       questions :=
         [ { id := "d1",
             text := "How mature is the organization's data management strategy?",
             qtype := QType.likert },
           { id := "d2",
             text := "To what extent is data quality monitored and maintained?",
             qtype := QType.likert },
           { id := "d3",
             text := "How effectively is data used for decision-making?",
             qtype := QType.likert },
           { id := "d4",
             text := "Does the organization have defined data governance policies?",
             qtype := QType.binary },
           { id := "d5",
             text := "How well is data security and privacy maintained?",
             qtype := QType.likert } ] }) ]

/-- A ResponseSet: the Python dict from question id to raw answer. -/
abbrev RMap := List (String × PyVal)

/-- The helper `get_all_question_ids` from categories.py. -/
def get_all_question_ids : List String :=
  (CATEGORIES.map (fun p => p.2.questions.map (fun q => q.id))).flatten

/-- A ScoreSet: the dict returned by `calculate_scores`, with one entry
per category (in catalog order) plus the `"overall"` entry. -/
structure ScoreSet where
  cats : List (String × Option ℚ)
  overall : Option ℚ
deriving DecidableEq, Repr

/-- Python `scores.get(category_id)`: `none` both when the key is
missing and when it is stored as `None`, exactly like `dict.get`. -/
def ScoreSet.getCat (s : ScoreSet) (cid : String) : Option ℚ :=
  (List.lookup cid s.cats).join

/-- One loop iteration of `calculate_scores` for a single question:
`some none` means the question is skipped (absent or answered `"NA"`),
`some (some n)` means it contributes the value `n`, and `none` means
the iteration raises (unparseable likert answer). -/
def questionScoreOf (responses : RMap) (q : Question) : Option (Option Int) :=
  match List.lookup q.id responses with
  | none => some none
  | some v =>
      if v = PyVal.str "NA" then some none
      else
        match q.qtype with
        | QType.binary => some (some (if v = PyVal.str "Yes" then 5 else 0))
        | QType.likert => Option.map some (pyInt v)

/-- The inner loop of `calculate_scores`: the list `category_scores`
collected over one category's questions, or `none` if an iteration
raises. -/
def collectScores (responses : RMap) : List Question → Option (List Int)
  | [] => some []
  | q :: qs =>
      match questionScoreOf responses q with
      | none => none
      | some none => collectScores responses qs
      | some (some n) =>
          Option.map (fun l => n :: l) (collectScores responses qs)

/-- The outer loop of `calculate_scores`: for each category, the list of
collected numeric answers, in catalog order. -/
def collectAll (responses : RMap) :
    List (String × Category) → Option (List (String × List Int))
  | [] => some []
  | (cid, cat) :: rest =>
      match collectScores responses cat.questions with
      | none => none
      | some xs =>
          Option.map (fun r => (cid, xs) :: r) (collectAll responses rest)

/-- Mean used by `calculate_scores`: `sum(l)/len(l)` when `l` is
non-empty, `None` otherwise.  Exact rational division models Python
float division. -/
def meanOpt (l : List Int) : Option ℚ :=
  match l with
  | [] => none
  | _ => some ((l.map (fun n => (n : ℚ))).sum / l.length)

/-- The function `calculate_scores` from data_manager.py.  `none`
models a raised exception (only possible on an unparseable likert
answer).  The overall score averages the flat pool `all_scores`, which
is the concatenation of the per-category collected lists in catalog
order. -/
def calculate_scores (responses : RMap) : Option ScoreSet :=
  match collectAll responses CATEGORIES with
  | none => none
  | some pairs =>
      some { cats := pairs.map (fun p => (p.1, meanOpt p.2)),
             overall := meanOpt (pairs.map Prod.snd).flatten }

/-- One history entry, the dict built by `save_assessment` and
`import_from_csv`: `{"date": ..., "responses": ..., "scores": ...}`.
The date is kept as the Python value read from the UI or the table. -/
structure Assessment where
  date : PyVal
  responses : RMap
  scores : ScoreSet
deriving DecidableEq, Repr

/-- A cell of the exported DataFrame: a Python float, a string, or a
missing value (`None` / NaN, rendered as an empty CSV cell). -/
inductive Cell where
  | num (q : ℚ)
  | str (s : String)
  | missing
deriving DecidableEq, Repr

/-- The raw response value placed into a question cell of the exported
DataFrame. -/
def pyValToCell : PyVal → Cell
  | PyVal.str s => Cell.str s
  | PyVal.int n => Cell.num n
  | PyVal.float q => Cell.num q
  | PyVal.nan => Cell.missing

/-- A score value placed into a score cell: the float itself, or a
missing cell for `None`. -/
def scoreCell : Option ℚ → Cell
  | none => Cell.missing
  | some q => Cell.num q

/-- The column name of a question in the exported table,
`f"{category name} - {question text}"`. -/
def questionCol (c : Category) (q : Question) : String :=
  c.name ++ " - " ++ q.text

/-- One row of `export_to_csv`: the row dict in insertion order (all
column names are distinct, so the association list order is the dict
order). -/
def exportRow (a : Assessment) : List (String × Cell) :=
  [("Date", pyValToCell a.date), ("Overall Score", scoreCell a.scores.overall)]
    ++ CATEGORIES.map (fun p => (p.2.name ++ " Score", scoreCell (a.scores.getCat p.1)))
    ++ (CATEGORIES.map (fun p =>
          p.2.questions.map (fun q =>
            (questionCol p.2 q,
             pyValToCell ((List.lookup q.id a.responses).getD (PyVal.str "NA")))))).flatten

/-- The function `export_to_csv` from data_manager.py, as the list of
DataFrame rows it builds. -/
def export_to_csv (history : List Assessment) : List (List (String × Cell)) :=
  history.map exportRow

/-- What `pandas.read_csv` yields for a cell that was written by
`DataFrame.to_csv`.  The literal string `"NA"` is one of the default
`na_values` markers and comes back as the float NaN; integer-looking
strings come back as numbers; every other string comes back unchanged;
a missing cell is read as NaN.  Floats come back as floats. -/
def csvReadCell : Cell → PyVal
  | Cell.str s =>
      if s = "NA" then PyVal.nan
      else
        match s.toInt? with
        | some n => PyVal.int n
        | none => PyVal.str s
  | Cell.num q => PyVal.float q
  | Cell.missing => PyVal.nan

/-- The `to_csv` / `read_csv` round trip applied to a whole exported
table: the table `import_from_csv` actually sees when fed the file
produced from `export_to_csv`. -/
def csvRoundTripTable (t : List (List (String × Cell))) :
    List (List (String × PyVal)) :=
  t.map (fun row => row.map (fun p => (p.1, csvReadCell p.2)))

/-- The responses dict rebuilt by one row of `import_from_csv`: for
every catalog question whose column is present in the row, bind its id
to the cell value (including NaN cells). -/
def importResponses (row : List (String × PyVal)) : RMap :=
  (CATEGORIES.map (fun p =>
      p.2.questions.filterMap (fun q =>
        (List.lookup (questionCol p.2 q) row).map (fun v => (q.id, v))))).flatten

/-- One iteration of the row loop of `import_from_csv`: `none` models a
raised exception (missing `Date` column, or `calculate_scores` raising
on the rebuilt responses). -/
def rowEntry (row : List (String × PyVal)) : Option Assessment :=
  match List.lookup "Date" row with
  | none => none
  | some d =>
      match calculate_scores (importResponses row) with
      | none => none
      | some scores =>
          some { date := d, responses := importResponses row, scores := scores }

/-- The row loop of `import_from_csv`: each successful row is appended
to the session history before the next row is processed, so an
exception leaves the rows appended so far in place and yields `false`. -/
def importRows (acc : List Assessment) :
    List (List (String × PyVal)) → Bool × List Assessment
  | [] => (true, acc)
  | row :: rest =>
      match rowEntry row with
      | none => (false, acc)
      | some a => importRows (acc ++ [a]) rest

/-- The function `import_from_csv` from data_manager.py.  `pre` is the
history in session state before the call; the table argument is `none`
when `pd.read_csv` itself raises, in which case the history is not yet
cleared.  Returns the success flag together with the history left in
session state. -/
def import_from_csv (pre : List Assessment)
    (table : Option (List (List (String × PyVal)))) :
    Bool × List Assessment :=
  match table with
  | none => (false, pre)
  | some rows => importRows [] rows

/-- Entries reconstructed from the longest prefix of rows that process
without an exception (used to characterise what a failed import leaves
behind). -/
def prefixEntries : List (List (String × PyVal)) → List Assessment
  | [] => []
  | row :: rest =>
      match rowEntry row with
      | none => []
      | some a => a :: prefixEntries rest

/-- True when every row of the table processes without an exception. -/
def allRowsOk (rows : List (List (String × PyVal))) : Bool :=
  rows.all (fun row => (rowEntry row).isSome)

/-- A history entry as held in the heap-based session model: the
responses snapshot is an address into the heap. -/
structure HEntry where
  date : PyVal
  respAddr : Nat
  scores : ScoreSet
deriving DecidableEq, Repr

/-- Session state: a bump-allocated heap of dict cells plus the
assessment history. -/
structure SessionState where
  heapSize : Nat
  heap : Nat → RMap
  history : List HEntry

/-- Heap update at one address. -/
def writeHeap (h : Nat → RMap) (a : Nat) (m : RMap) : Nat → RMap :=
  fun x => if x = a then m else h x

/-- The function `save_assessment` from data_manager.py:
`responses.copy()` allocates a fresh dict with the same contents, and
the new entry is appended to the end of the history. -/
def save_assessment (st : SessionState) (respAddr : Nat) (scores : ScoreSet)
    (date : PyVal) : SessionState :=
  { heapSize := st.heapSize + 1,
    heap := writeHeap st.heap st.heapSize (st.heap respAddr),
    history := st.history ++
      [{ date := date, respAddr := st.heapSize, scores := scores }] }

/-- An in-place mutation of the dict at address `a` (adding, removing
or overwriting keys: any function of its contents). -/
def updateResponses (st : SessionState) (a : Nat) (f : RMap → RMap) :
    SessionState :=
  { st with heap := writeHeap st.heap a (f (st.heap a)) }

/-- Stateful view of `calculate_scores`: it reads the dict at `a` and
leaves the session state untouched (the Python function only reads
`responses` and builds fresh local objects). -/
def calculate_scoresS (st : SessionState) (a : Nat) :
    SessionState × Option ScoreSet :=
  (st, calculate_scores (st.heap a))

/-- The per-category deltas between the two compared score sets: one
entry per catalog category where both scores are non-null, in catalog
order, tagged with the category display name. -/
def scoreDiffs (latest previous : ScoreSet) : List (String × ℚ) :=
  CATEGORIES.filterMap (fun p =>
    match latest.getCat p.1, previous.getCat p.1 with
    | some l, some pr => some (p.2.name, l - pr)
    | _, _ => none)

/-- The improvement-analysis core of `display_time_analysis`
(assessment_history.py, lines 141-167): categories with delta above 0.5
sorted descending by delta, and categories with delta below -0.5 sorted
ascending by delta.  Python `sorted` is modelled by `mergeSort`. -/
def improvement_core (latest previous : ScoreSet) :
    List (String × ℚ) × List (String × ℚ) :=
  (((scoreDiffs latest previous).filter
      (fun x => decide ((1 : ℚ) / 2 < x.2))).mergeSort
      (fun a b => decide (b.2 ≤ a.2)),
   ((scoreDiffs latest previous).filter
      (fun x => decide (x.2 < -(1 / 2 : ℚ)))).mergeSort
      (fun a b => decide (a.2 ≤ b.2)))

/-- The operation `improvement_analysis` of the spec, extracted from
`display_time_analysis`: with fewer than two history entries the
function reports insufficient data (`none`) and computes nothing;
otherwise it compares `history[-1]` against `history[-2]`. -/
def improvement_analysis (history : List Assessment) :
    Option (List (String × ℚ) × List (String × ℚ)) :=
  match history.reverse with
  | latest :: previous :: _ =>
      some (improvement_core latest.scores previous.scores)
  | _ => none

/-- A value is a valid Answer of the data model: `"NA"`, or `Yes`/`No`
for a binary question, or an integer-parseable value for a likert
question. -/
def validAnswer (t : QType) (v : PyVal) : Bool :=
  v == PyVal.str "NA" ||
    match t with
    | QType.binary => v == PyVal.str "Yes" || v == PyVal.str "No"
    | QType.likert => (pyInt v).isSome

/-- Every catalog question that is present in the response set carries a
valid Answer (values under unknown keys are unconstrained). -/
def validResponses (r : RMap) : Bool :=
  CATEGORIES.all (fun p => p.2.questions.all (fun q =>
    match List.lookup q.id r with
    | none => true
    | some v => validAnswer q.qtype v))

/-- The numeric conversion stated by the spec: binary answers convert as
Yes to 5 and No to 0, likert answers parse as integers. -/
def claimAnswerValue (q : Question) (v : PyVal) : Option Int :=
  match q.qtype with
  | QType.binary =>
      if v = PyVal.str "Yes" then some 5
      else if v = PyVal.str "No" then some 0
      else none
  | QType.likert => pyInt v

/-- The scorable numeric values of a question list under a response
set, in question order: a question contributes exactly when it is
present and not answered `"NA"`. -/
def scorableValues (r : RMap) (qs : List Question) : List Int :=
  qs.filterMap (fun q =>
    match List.lookup q.id r with
    | none => none
    | some v => if v = PyVal.str "NA" then none else claimAnswerValue q v)

/-- The flat pool of every scorable answer across the whole catalog, in
catalog order. -/
def allScorable (r : RMap) : List Int :=
  (CATEGORIES.map (fun p => scorableValues r p.2.questions)).flatten

/-- The non-null category scores of a score set, in catalog order. -/
def presentCatMeans (s : ScoreSet) : List ℚ :=
  CATEGORIES.filterMap (fun p => s.getCat p.1)

/-- Concrete response set with two scorable answers in People and one
in Process. -/
def c2example : RMap :=
  [("p1", PyVal.str "3"), ("p2", PyVal.str "5"), ("pr1", PyVal.str "2")]

/-- The score set `calculate_scores` produces for `c2example`. -/
def c2scores : ScoreSet :=
  { cats := [("people", some 4), ("process", some 2), ("technology", none),
             ("governance", none), ("data", none)],
    overall := some (10 / 3) }

/-- Concrete session state used by witnesses. -/
def stExample : SessionState :=
  { heapSize := 1, heap := fun _ => [("p1", PyVal.str "3")], history := [] }

/-- Column name of question p1, used by concrete import tables. -/
def p1col : String := "People - How well does the organization develop employee skills?"

/-- A table row that processes successfully. -/
def c3row1 : List (String × PyVal) :=
  [("Date", PyVal.str "2024-01-01"), (p1col, PyVal.str "3")]

/-- A table row whose likert answer does not parse, raising inside
`calculate_scores`. -/
def c3row2 : List (String × PyVal) :=
  [("Date", PyVal.str "2024-01-02"), (p1col, PyVal.str "bad")]

/-- Two concrete assessments whose People scores went from 2.0 to 3.0. -/
def c7prev : Assessment :=
  { date := PyVal.str "2024-01-01", responses := [],
    scores := { cats := [("people", some 2)], overall := some 2 } }

/-- The later of the two concrete assessments. -/
def c7latest : Assessment :=
  { date := PyVal.str "2024-02-01", responses := [],
    scores := { cats := [("people", some 3)], overall := some 3 } }

/-- The column order stated by the spec: Date, Overall Score, one score
column per category in catalog order, then one column per question
ordered by category and question order. -/
def expectedColumns : List String :=
  ["Date", "Overall Score"]
    ++ CATEGORIES.map (fun p => p.2.name ++ " Score")
    ++ (CATEGORIES.map (fun p => p.2.questions.map (fun q => questionCol p.2 q))).flatten

/-- Concrete responses whose overall score is 13/3, a value with no
exact two-decimal representation. -/
def c5responses : RMap :=
  [("p1", PyVal.str "3"), ("p2", PyVal.str "5"), ("p3", PyVal.str "5")]

/-- The score set `calculate_scores` produces for `c5responses`. -/
def c5scores : ScoreSet :=
  { cats := [("people", some (13 / 3)), ("process", none), ("technology", none),
             ("governance", none), ("data", none)],
    overall := some (13 / 3) }

/-- A concrete history entry holding those scores. -/
def c5a : Assessment :=
  { date := PyVal.str "2024-01-01", responses := c5responses, scores := c5scores }

/-- A response set answering only question p1 (with "3"). -/
def c4responses : RMap := [("p1", PyVal.str "3")]

/-- The score set `calculate_scores` produces for `c4responses`. -/
def c4scores : ScoreSet :=
  { cats := [("people", some 3), ("process", none), ("technology", none),
             ("governance", none), ("data", none)],
    overall := some 3 }

/-- A one-entry history whose entry answers only p1. -/
def c4history : List Assessment :=
  [{ date := PyVal.str "2024-01-01", responses := c4responses, scores := c4scores }]

/-- A response set answering every catalog question except p4: likert
questions get "3" and binary questions get "Yes". -/
def c10responses : RMap :=
  [("p1", PyVal.str "3"), ("p2", PyVal.str "3"), ("p3", PyVal.str "3"),
   ("p5", PyVal.str "3"),
   ("pr1", PyVal.str "3"), ("pr2", PyVal.str "3"), ("pr3", PyVal.str "3"),
   ("pr4", PyVal.str "Yes"), ("pr5", PyVal.str "3"),
   ("t1", PyVal.str "3"), ("t2", PyVal.str "3"), ("t3", PyVal.str "3"),
   ("t4", PyVal.str "Yes"), ("t5", PyVal.str "3"),
   ("g1", PyVal.str "3"), ("g2", PyVal.str "3"), ("g3", PyVal.str "3"),
   ("g4", PyVal.str "Yes"), ("g5", PyVal.str "3"),
   ("d1", PyVal.str "3"), ("d2", PyVal.str "3"), ("d3", PyVal.str "3"),
   ("d4", PyVal.str "Yes"), ("d5", PyVal.str "3")]

/-- The score set `calculate_scores` produces for `c10responses`. -/
def c10scores : ScoreSet :=
  { cats := [("people", some 3), ("process", some (17 / 5)),
             ("technology", some (17 / 5)), ("governance", some (17 / 5)),
             ("data", some (17 / 5))],
    overall := some (10 / 3) }

/-- A concrete history entry whose p4 is unanswered. -/
def c10a : Assessment :=
  { date := PyVal.str "2024-01-01", responses := c10responses, scores := c10scores }

/-- The one-entry history holding `c10a`. -/
def c10history : List Assessment := [c10a]

/-- The state `import_from_csv` leaves after being fed the CSV produced
by exporting `c10history`. -/
def c10import : Bool × List Assessment :=
  import_from_csv c10history (some (csvRoundTripTable (export_to_csv c10history)))

/-! Theorems. -/

theorem meanOpt_eq (l : List Int) :
    meanOpt l =
      (if l = [] then none
       else some ((l.map (fun n => (n : ℚ))).sum / l.length)) := by
  cases l <;> simp [meanOpt]

theorem collectScores_eq_of_valid {r : RMap} {qs : List Question}
    (h : ∀ q ∈ qs, ∀ v, List.lookup q.id r = some v →
        validAnswer q.qtype v = true) :
    collectScores r qs = some (scorableValues r qs) := by
  induction qs with
  | nil => rfl
  | cons q qs ih =>
      have hq := h q (by simp)
      have htl : collectScores r qs = some (scorableValues r qs) :=
        ih (fun q' hq' v hv => h q' (by simp [hq']) v hv)
      cases hl : List.lookup q.id r with
      | none =>
          simp [collectScores, questionScoreOf, scorableValues, hl, htl]
      | some v =>
          have hval := hq v hl
          by_cases hna : v = PyVal.str "NA"
          · subst hna
            simp [collectScores, questionScoreOf, scorableValues, hl, htl]
          · cases ht : q.qtype with
            | binary =>
                have hyn : v = PyVal.str "Yes" ∨ v = PyVal.str "No" := by
                  simp only [validAnswer, ht, Bool.or_eq_true, beq_iff_eq] at hval
                  tauto
                rcases hyn with hv | hv <;> subst hv <;>
                  simp [collectScores, questionScoreOf, scorableValues, hl, ht,
                        claimAnswerValue, htl, hna]
            | likert =>
                cases hpy : pyInt v with
                | none =>
                    exfalso
                    simp only [validAnswer, ht, Bool.or_eq_true, beq_iff_eq,
                      hpy, Option.isSome_none, Bool.false_eq_true, or_false] at hval
                    exact hna hval
                | some n =>
                    simp [collectScores, questionScoreOf, scorableValues, hl, ht,
                          claimAnswerValue, hpy, hna, htl]

theorem collectAll_eq_of_valid_aux {r : RMap} :
    ∀ cats : List (String × Category),
      (∀ p ∈ cats, ∀ q ∈ p.2.questions, ∀ v,
          List.lookup q.id r = some v → validAnswer q.qtype v = true) →
      collectAll r cats =
        some (cats.map (fun p => (p.1, scorableValues r p.2.questions)))
  | [], _ => rfl
  | (cid, cat) :: rest, h => by
      have hhd : collectScores r cat.questions =
          some (scorableValues r cat.questions) :=
        collectScores_eq_of_valid (fun q hq v hv => h (cid, cat) (by simp) q hq v hv)
      have htl := collectAll_eq_of_valid_aux rest
        (fun p hp q hq v hv => h p (by simp [hp]) q hq v hv)
      simp [collectAll, hhd, htl]

theorem validResponses_spec {r : RMap} (h : validResponses r = true) :
    ∀ p ∈ CATEGORIES, ∀ q ∈ p.2.questions, ∀ v,
      List.lookup q.id r = some v → validAnswer q.qtype v = true := by
  intro p hp q hq v hv
  simp only [validResponses, List.all_eq_true] at h
  have := h p hp q hq
  rw [hv] at this
  exact this

theorem calculate_scores_of_valid {r : RMap} (h : validResponses r = true) :
    calculate_scores r =
      some { cats := CATEGORIES.map
               (fun p => (p.1, meanOpt (scorableValues r p.2.questions))),
             overall := meanOpt (allScorable r) } := by
  have hall := @collectAll_eq_of_valid_aux r CATEGORIES (validResponses_spec h)
  simp [calculate_scores, hall, allScorable, List.map_map, Function.comp_def]

theorem lookup_map_pair {β : Type} (f : String × Category → β) :
    ∀ l : List (String × Category), (l.map Prod.fst).Nodup →
      ∀ p ∈ l, List.lookup p.1 (l.map (fun x => (x.1, f x))) = some (f p)
  | [], _, p, hp => by simp at hp
  | x :: xs, hnd, p, hp => by
      rcases List.mem_cons.mp hp with hpx | hpx
      · subst hpx
        simp [List.lookup]
      · have hx1 : x.1 ≠ p.1 := by
          intro hcontra
          have : p.1 ∈ xs.map Prod.fst := List.mem_map_of_mem Prod.fst hpx
          rw [← hcontra] at this
          exact (List.nodup_cons.mp hnd).1 this
        have hbeq : (p.1 == x.1) = false := by
          simp [BEq.beq]
          exact fun hcontra => hx1 hcontra.symm
        simp [List.lookup, hbeq]
        exact lookup_map_pair f xs (List.nodup_cons.mp hnd).2 p hpx

theorem catalog_keys_nodup : (CATEGORIES.map Prod.fst).Nodup := by
  with_unfolding_all decide

theorem collectScores_congr {r1 r2 : RMap} :
    ∀ qs : List Question,
      (∀ q ∈ qs, List.lookup q.id r1 = List.lookup q.id r2) →
      collectScores r1 qs = collectScores r2 qs
  | [], _ => rfl
  | q :: qs, h => by
      have hq := h q (by simp)
      have htl := collectScores_congr qs (fun q' hq' => h q' (by simp [hq']))
      simp [collectScores, questionScoreOf, hq, htl]

theorem collectAll_congr {r1 r2 : RMap} :
    ∀ cats : List (String × Category),
      (∀ p ∈ cats, ∀ q ∈ p.2.questions,
          List.lookup q.id r1 = List.lookup q.id r2) →
      collectAll r1 cats = collectAll r2 cats
  | [], _ => rfl
  | (cid, cat) :: rest, h => by
      have hhd := @collectScores_congr r1 r2 cat.questions
        (fun q hq => h (cid, cat) (by simp) q hq)
      have htl := collectAll_congr rest (fun p hp q hq => h p (by simp [hp]) q hq)
      simp [collectAll, hhd, htl]

theorem calculate_scores_congr {r1 r2 : RMap}
    (h : ∀ p ∈ CATEGORIES, ∀ q ∈ p.2.questions,
        List.lookup q.id r1 = List.lookup q.id r2) :
    calculate_scores r1 = calculate_scores r2 := by
  simp [calculate_scores, collectAll_congr CATEGORIES h]

theorem getCat_of_map (f : String × Category → Option ℚ) (ov : Option ℚ)
    {p : String × Category} (hp : p ∈ CATEGORIES) :
    ScoreSet.getCat { cats := CATEGORIES.map (fun x => (x.1, f x)), overall := ov } p.1 =
      f p := by
  simp [ScoreSet.getCat, lookup_map_pair f CATEGORIES catalog_keys_nodup p hp]

/-- C1: for every ResponseSet (a mapping whose catalog answers are valid
Answers), `calculate_scores` succeeds and assigns to each category the
arithmetic mean of the numeric values of that category's questions that
are present and not `"NA"` (binary Yes as 5 and No as 0, likert parsed
as an integer), and assigns null, never zero, to a category with no
scorable answer. -/
theorem C1_category_mean (r : RMap) (hv : validResponses r = true) :
    ∃ s, calculate_scores r = some s ∧
      ∀ p ∈ CATEGORIES,
        s.getCat p.1 =
          (if scorableValues r p.2.questions = [] then none
           else some (((scorableValues r p.2.questions).map (fun n => (n : ℚ))).sum /
                      (scorableValues r p.2.questions).length)) := by
  refine ⟨_, calculate_scores_of_valid hv, ?_⟩
  intro p hp
  rw [getCat_of_map (fun x => meanOpt (scorableValues r x.2.questions)) _ hp]
  exact meanOpt_eq _

/-- Witness for C1 at a concrete response set. -/
theorem C1_category_mean_witness :
    ∃ s, calculate_scores [("p1", PyVal.str "4")] = some s ∧
      ∀ p ∈ CATEGORIES,
        s.getCat p.1 =
          (if scorableValues [("p1", PyVal.str "4")] p.2.questions = [] then none
           else some (((scorableValues [("p1", PyVal.str "4")] p.2.questions).map
                        (fun n => (n : ℚ))).sum /
                      (scorableValues [("p1", PyVal.str "4")] p.2.questions).length)) :=
  C1_category_mean _ (by with_unfolding_all decide)

/-- C2: the overall score is the flat mean of every scorable answer
across all categories (null when there is none), and on a concrete
response set with unequal scorable-answer counts in two categories it
differs from the mean of the per-category means. -/
theorem C2_overall_flat_mean :
    (∀ r : RMap, validResponses r = true →
      ∃ s, calculate_scores r = some s ∧
        s.overall =
          (if allScorable r = [] then none
           else some (((allScorable r).map (fun n => (n : ℚ))).sum /
                      (allScorable r).length))) ∧
    (calculate_scores c2example = some c2scores ∧
      (∃ pa ∈ CATEGORIES, ∃ pb ∈ CATEGORIES,
        (scorableValues c2example pa.2.questions).length ≠
          (scorableValues c2example pb.2.questions).length) ∧
      c2scores.overall ≠
        some ((presentCatMeans c2scores).sum / (presentCatMeans c2scores).length)) := by
  constructor
  · intro r hv
    refine ⟨_, calculate_scores_of_valid hv, ?_⟩
    exact meanOpt_eq _
  · with_unfolding_all decide

/-- Witness for the universally quantified part of C2 at a concrete
response set. -/
theorem C2_overall_flat_mean_witness :
    ∃ s, calculate_scores c2example = some s ∧
      s.overall =
        (if allScorable c2example = [] then none
         else some (((allScorable c2example).map (fun n => (n : ℚ))).sum /
                    (allScorable c2example).length)) :=
  C2_overall_flat_mean.1 c2example (by with_unfolding_all decide)

theorem lookup_eq_none_of_not_keys {u : RMap} {k : String}
    (h : ∀ p ∈ u, p.1 ≠ k) : List.lookup k u = none := by
  induction u with
  | nil => rfl
  | cons x xs ih =>
      have hx := h x (by simp)
      have hbeq : (k == x.1) = false := by
        simp only [beq_eq_false_iff_ne, ne_eq]
        exact fun hc => hx hc.symm
      simp only [List.lookup, hbeq]
      exact ih (fun p hp => h p (by simp [hp]))

theorem mem_all_question_ids {p : String × Category} {q : Question}
    (hp : p ∈ CATEGORIES) (hq : q ∈ p.2.questions) :
    q.id ∈ get_all_question_ids := by
  simp only [get_all_question_ids, List.mem_flatten, List.mem_map]
  exact ⟨p.2.questions.map (fun q => q.id), ⟨p, hp, rfl⟩,
         List.mem_map_of_mem _ hq⟩

/-- C8: adding bindings under question ids that do not belong to the
catalog (in either update direction) leaves the result of
`calculate_scores` unchanged: unknown ids are silently ignored. -/
theorem C8_unknown_ids_ignored (r u : RMap)
    (hu : ∀ p ∈ u, p.1 ∉ get_all_question_ids) :
    calculate_scores (u ++ r) = calculate_scores r ∧
      calculate_scores (r ++ u) = calculate_scores r := by
  have hnone : ∀ p ∈ CATEGORIES, ∀ q ∈ p.2.questions,
      List.lookup q.id u = none := by
    intro p hp q hq
    exact lookup_eq_none_of_not_keys
      (fun x hx hxk => hu x hx (hxk ▸ mem_all_question_ids hp hq))
  constructor
  · refine calculate_scores_congr ?_
    intro p hp q hq
    rw [List.lookup_append, hnone p hp q hq]
    cases List.lookup q.id r <;> rfl
  · refine calculate_scores_congr ?_
    intro p hp q hq
    rw [List.lookup_append, hnone p hp q hq]
    cases List.lookup q.id r <;> rfl

/-- Witness for C8 at a concrete response set and unknown-key map. -/
theorem C8_unknown_ids_ignored_witness :
    calculate_scores ([("zzz", PyVal.str "7")] ++ [("p1", PyVal.str "3")]) =
        calculate_scores [("p1", PyVal.str "3")] ∧
      calculate_scores ([("p1", PyVal.str "3")] ++ [("zzz", PyVal.str "7")]) =
        calculate_scores [("p1", PyVal.str "3")] :=
  C8_unknown_ids_ignored [("p1", PyVal.str "3")] [("zzz", PyVal.str "7")]
    (by with_unfolding_all decide)

/-- C9: `calculate_scores` is deterministic and pure: the stateful call
leaves the session state unchanged and returns a function of the dict
contents alone; equal inputs give equal outputs; and the output depends
only on the input bindings of catalog question ids (plus the static
catalog). -/
theorem C9_pure_deterministic :
    (∀ st a, calculate_scoresS st a = (st, calculate_scores (st.heap a))) ∧
    (∀ r1 r2 : RMap, r1 = r2 → calculate_scores r1 = calculate_scores r2) ∧
    (∀ r1 r2 : RMap,
      (∀ p ∈ CATEGORIES, ∀ q ∈ p.2.questions,
          List.lookup q.id r1 = List.lookup q.id r2) →
      calculate_scores r1 = calculate_scores r2) :=
  ⟨fun _ _ => rfl, fun _ _ h => by rw [h], fun _ _ h => calculate_scores_congr h⟩

/-- Witness for C9 at concrete inputs. -/
theorem C9_pure_deterministic_witness :
    calculate_scoresS stExample 0 = (stExample, calculate_scores (stExample.heap 0)) ∧
      calculate_scores [("p1", PyVal.str "3")] = calculate_scores [("p1", PyVal.str "3")] ∧
      calculate_scores [("p2", PyVal.str "5")] = calculate_scores [("p2", PyVal.str "5")] :=
  ⟨C9_pure_deterministic.1 stExample 0,
   C9_pure_deterministic.2.1 _ _ rfl,
   C9_pure_deterministic.2.2 [("p2", PyVal.str "5")] [("p2", PyVal.str "5")]
     (fun _ _ _ _ => rfl)⟩

theorem importRows_eq :
    ∀ (rows : List (List (String × PyVal))) (acc : List Assessment),
      importRows acc rows = (allRowsOk rows, acc ++ prefixEntries rows)
  | [], acc => by simp [importRows, allRowsOk, prefixEntries]
  | row :: rest, acc => by
      cases hre : rowEntry row with
      | none => simp [importRows, allRowsOk, prefixEntries, hre]
      | some a =>
          simp [importRows, allRowsOk, prefixEntries, hre,
                importRows_eq rest (acc ++ [a])]

/-- C3 (amended): when the table itself fails to parse the import
returns failure and leaves the pre-existing history untouched; when the
table parses, the pre-existing history is discarded and the import
returns success exactly when every row processes, leaving in the store
the entries built from the longest processable prefix of rows — on a
row failure that prefix, not an empty store, remains. -/
theorem C3_import_failure_state :
    (∀ (pre : List Assessment) rows,
        import_from_csv pre (some rows) = (allRowsOk rows, prefixEntries rows)) ∧
    (∀ pre : List Assessment, import_from_csv pre none = (false, pre)) := by
  constructor
  · intro pre rows
    simpa using importRows_eq rows []
  · intro pre
    rfl

/-- Counterexample to C3 as stated: a two-row table whose second row
fails makes the import return failure, yet the store is NOT left empty
— the successfully processed first row remains. -/
theorem C3_counterexample :
    (import_from_csv [] (some [c3row1, c3row2])).1 = false ∧
      (import_from_csv [] (some [c3row1, c3row2])).2 ≠ [] := by
  with_unfolding_all decide

/-- C6: `save_assessment` appends exactly one entry at the end, leaves
every previously allocated dict (hence every previously stored entry)
unchanged, snapshots the live responses dict by copy, and a later
in-place update of the live dict — adding, removing or overwriting keys
— changes neither the history list nor the snapshot contents. -/
theorem C6_save_snapshot (st : SessionState) (respAddr : Nat) (scores : ScoreSet)
    (date : PyVal) (f : RMap → RMap) (hlt : respAddr < st.heapSize) :
    (save_assessment st respAddr scores date).history =
        st.history ++ [{ date := date, respAddr := st.heapSize, scores := scores }] ∧
    (∀ a, a < st.heapSize →
        (save_assessment st respAddr scores date).heap a = st.heap a) ∧
    (save_assessment st respAddr scores date).heap st.heapSize = st.heap respAddr ∧
    (updateResponses (save_assessment st respAddr scores date) respAddr f).history =
        (save_assessment st respAddr scores date).history ∧
    (updateResponses (save_assessment st respAddr scores date) respAddr f).heap
        st.heapSize = st.heap respAddr := by
  have hne : st.heapSize ≠ respAddr := Nat.ne_of_gt hlt
  refine ⟨rfl, ?_, ?_, rfl, ?_⟩
  · intro a ha
    have hne2 : a ≠ st.heapSize := Nat.ne_of_lt ha
    simp [save_assessment, writeHeap, hne2]
  · simp [save_assessment, writeHeap]
  · simp [updateResponses, save_assessment, writeHeap, hne]

/-- Witness for C6 at a concrete session state and mutation. -/
theorem C6_save_snapshot_witness :
    (save_assessment stExample 0 c2scores (PyVal.str "2024-03-01")).history =
        stExample.history ++
          [{ date := PyVal.str "2024-03-01", respAddr := stExample.heapSize,
             scores := c2scores }] ∧
      (updateResponses
          (save_assessment stExample 0 c2scores (PyVal.str "2024-03-01")) 0
          (fun m => ("p1", PyVal.str "5") :: m)).heap stExample.heapSize =
        stExample.heap 0 :=
  ⟨(C6_save_snapshot stExample 0 c2scores (PyVal.str "2024-03-01")
      (fun m => ("p1", PyVal.str "5") :: m) (by decide)).1,
   (C6_save_snapshot stExample 0 c2scores (PyVal.str "2024-03-01")
      (fun m => ("p1", PyVal.str "5") :: m) (by decide)).2.2.2.2⟩

theorem pairwise_mergeSort_desc (l : List (String × ℚ)) :
    (l.mergeSort (fun a b => decide (b.2 ≤ a.2))).Pairwise
      (fun a b : String × ℚ => b.2 ≤ a.2) := by
  have htrans : ∀ a b c : String × ℚ, decide (b.2 ≤ a.2) = true →
      decide (c.2 ≤ b.2) = true → decide (c.2 ≤ a.2) = true := by
    intro a b c hab hbc
    simp only [decide_eq_true_eq] at *
    exact le_trans hbc hab
  have htotal : ∀ a b : String × ℚ,
      (decide (b.2 ≤ a.2) || decide (a.2 ≤ b.2)) = true := by
    intro a b
    simp only [Bool.or_eq_true, decide_eq_true_eq]
    exact le_total b.2 a.2
  have h := @List.sorted_mergeSort _ (fun a b : String × ℚ => decide (b.2 ≤ a.2))
    htrans htotal l
  exact List.Pairwise.imp (fun hab => of_decide_eq_true hab) h

theorem pairwise_mergeSort_asc (l : List (String × ℚ)) :
    (l.mergeSort (fun a b => decide (a.2 ≤ b.2))).Pairwise
      (fun a b : String × ℚ => a.2 ≤ b.2) := by
  have htrans : ∀ a b c : String × ℚ, decide (a.2 ≤ b.2) = true →
      decide (b.2 ≤ c.2) = true → decide (a.2 ≤ c.2) = true := by
    intro a b c hab hbc
    simp only [decide_eq_true_eq] at *
    exact le_trans hab hbc
  have htotal : ∀ a b : String × ℚ,
      (decide (a.2 ≤ b.2) || decide (b.2 ≤ a.2)) = true := by
    intro a b
    simp only [Bool.or_eq_true, decide_eq_true_eq]
    exact le_total a.2 b.2
  have h := @List.sorted_mergeSort _ (fun a b : String × ℚ => decide (a.2 ≤ b.2))
    htrans htotal l
  exact List.Pairwise.imp (fun hab => of_decide_eq_true hab) h

theorem mem_scoreDiffs {latest previous : ScoreSet} {x : String × ℚ} :
    x ∈ scoreDiffs latest previous ↔
      ∃ p ∈ CATEGORIES, ∃ l pr,
        latest.getCat p.1 = some l ∧ previous.getCat p.1 = some pr ∧
        x = (p.2.name, l - pr) := by
  simp only [scoreDiffs, List.mem_filterMap]
  constructor
  · rintro ⟨p, hp, hmatch⟩
    refine ⟨p, hp, ?_⟩
    cases hl : latest.getCat p.1 with
    | none => rw [hl] at hmatch; simp at hmatch
    | some l =>
        cases hpr : previous.getCat p.1 with
        | none => rw [hl, hpr] at hmatch; simp at hmatch
        | some pr =>
            rw [hl, hpr] at hmatch
            simp only [Option.some_inj] at hmatch
            exact ⟨l, pr, rfl, rfl, hmatch.symm⟩
  · rintro ⟨p, hp, l, pr, hl, hpr, rfl⟩
    exact ⟨p, hp, by rw [hl, hpr]⟩

/-- C7: with at least two history entries the analysis compares the last
two entries in insertion order; a category enters `improved` exactly
when both scores are non-null and the delta exceeds 0.5, enters
`declined` exactly when the delta is below -0.5, and enters neither in
the stable band; `improved` is sorted by delta descending, `declined`
ascending; with fewer than two entries the analysis reports no data and
produces nothing. -/
theorem C7_improvement_analysis :
    (∀ history : List Assessment, history.length < 2 →
        improvement_analysis history = none) ∧
    (∀ (history : List Assessment) (latest previous : Assessment) rest,
        history.reverse = latest :: previous :: rest →
        ∃ imp dec, improvement_analysis history = some (imp, dec) ∧
          (∀ x, x ∈ imp ↔ ∃ p ∈ CATEGORIES, ∃ l pr,
              latest.scores.getCat p.1 = some l ∧
              previous.scores.getCat p.1 = some pr ∧
              x = (p.2.name, l - pr) ∧ (1 : ℚ) / 2 < l - pr) ∧
          (∀ x, x ∈ dec ↔ ∃ p ∈ CATEGORIES, ∃ l pr,
              latest.scores.getCat p.1 = some l ∧
              previous.scores.getCat p.1 = some pr ∧
              x = (p.2.name, l - pr) ∧ l - pr < -((1 : ℚ) / 2)) ∧
          imp.Pairwise (fun a b : String × ℚ => b.2 ≤ a.2) ∧
          dec.Pairwise (fun a b : String × ℚ => a.2 ≤ b.2)) := by
  constructor
  · intro history hlen
    match history with
    | [] => rfl
    | [a] => rfl
    | a :: b :: t => simp at hlen; omega
  · intro history latest previous rest hrev
    refine ⟨(improvement_core latest.scores previous.scores).1,
            (improvement_core latest.scores previous.scores).2, ?_, ?_, ?_, ?_, ?_⟩
    · simp only [improvement_analysis, hrev]
    · intro x
      simp only [improvement_core, List.mem_mergeSort, List.mem_filter]
      constructor
      · rintro ⟨hmem, hd⟩
        obtain ⟨p, hp, l, pr, hl, hpr, rfl⟩ := mem_scoreDiffs.mp hmem
        exact ⟨p, hp, l, pr, hl, hpr, rfl, of_decide_eq_true hd⟩
      · rintro ⟨p, hp, l, pr, hl, hpr, rfl, hgt⟩
        exact ⟨mem_scoreDiffs.mpr ⟨p, hp, l, pr, hl, hpr, rfl⟩,
               decide_eq_true hgt⟩
    · intro x
      simp only [improvement_core, List.mem_mergeSort, List.mem_filter]
      constructor
      · rintro ⟨hmem, hd⟩
        obtain ⟨p, hp, l, pr, hl, hpr, rfl⟩ := mem_scoreDiffs.mp hmem
        exact ⟨p, hp, l, pr, hl, hpr, rfl, of_decide_eq_true hd⟩
      · rintro ⟨p, hp, l, pr, hl, hpr, rfl, hgt⟩
        exact ⟨mem_scoreDiffs.mpr ⟨p, hp, l, pr, hl, hpr, rfl⟩,
               decide_eq_true hgt⟩
    · exact pairwise_mergeSort_desc _
    · exact pairwise_mergeSort_asc _

/-- Witness for C7: one entry yields no analysis, two entries yield one. -/
theorem C7_improvement_analysis_witness :
    improvement_analysis [c7prev] = none ∧
      (improvement_analysis [c7prev, c7latest]).isSome = true := by
  constructor
  · exact C7_improvement_analysis.1 [c7prev] (by simp)
  · obtain ⟨imp, dec, heq, -, -, -, -⟩ :=
      C7_improvement_analysis.2 [c7prev, c7latest] c7latest c7prev [] rfl
    rw [heq]
    rfl

theorem exportRow_columns (a : Assessment) :
    (exportRow a).map Prod.fst = expectedColumns := by
  simp [exportRow, expectedColumns, List.map_append, List.map_map,
        Function.comp_def, List.map_flatten]

theorem exportRow_date (a : Assessment) :
    List.lookup "Date" (exportRow a) = some (pyValToCell a.date) := rfl

theorem exportRow_overall (a : Assessment) :
    List.lookup "Overall Score" (exportRow a) = some (scoreCell a.scores.overall) := rfl

theorem exportRow_cat_score (a : Assessment) :
    ∀ p ∈ CATEGORIES,
      List.lookup (p.2.name ++ " Score") (exportRow a) =
        some (scoreCell (a.scores.getCat p.1)) := by
  intro p hp
  simp only [CATEGORIES, List.mem_cons, List.not_mem_nil, or_false] at hp
  rcases hp with rfl | rfl | rfl | rfl | rfl <;> rfl

theorem exportRow_question_cell (a : Assessment) :
    ∀ p ∈ CATEGORIES, ∀ q ∈ p.2.questions,
      List.lookup (questionCol p.2 q) (exportRow a) =
        some (pyValToCell ((List.lookup q.id a.responses).getD (PyVal.str "NA"))) := by
  intro p hp q hq
  simp only [CATEGORIES, List.mem_cons, List.not_mem_nil, or_false] at hp
  rcases hp with rfl | rfl | rfl | rfl | rfl <;>
    · simp only [List.mem_cons, List.not_mem_nil, or_false] at hq
      rcases hq with rfl | rfl | rfl | rfl | rfl <;> rfl

/-- C5 (amended): every exported row has columns in the order Date,
Overall Score, category score columns in catalog order, then question
columns ordered by category and question; the Date cell holds the date,
score cells hold the raw full-precision float for a non-null score and
the missing-value marker (written as an empty CSV cell) for a null one,
and question cells hold the raw answer string, `"NA"` when the question
is absent. -/
theorem C5_export_schema (h : List Assessment) (i : Nat) (a : Assessment)
    (ha : h[i]? = some a) :
    (export_to_csv h)[i]? = some (exportRow a) ∧
    (exportRow a).map Prod.fst = expectedColumns ∧
    List.lookup "Date" (exportRow a) = some (pyValToCell a.date) ∧
    List.lookup "Overall Score" (exportRow a) =
      some (match a.scores.overall with
            | none => Cell.missing
            | some q => Cell.num q) ∧
    (∀ p ∈ CATEGORIES,
      List.lookup (p.2.name ++ " Score") (exportRow a) =
        some (match a.scores.getCat p.1 with
              | none => Cell.missing
              | some q => Cell.num q)) ∧
    (∀ p ∈ CATEGORIES, ∀ q ∈ p.2.questions,
      List.lookup (questionCol p.2 q) (exportRow a) =
        some (pyValToCell ((List.lookup q.id a.responses).getD (PyVal.str "NA")))) := by
  refine ⟨?_, exportRow_columns a, exportRow_date a, ?_, ?_, exportRow_question_cell a⟩
  · simp [export_to_csv, ha]
  · rw [exportRow_overall a]
    cases a.scores.overall <;> rfl
  · intro p hp
    rw [exportRow_cat_score a p hp]
    cases a.scores.getCat p.1 <;> rfl

/-- Counterexample to C5 as stated: the Overall Score cell of the
exported row holds the raw float 13/3; since 13/3 is not an integer
multiple of 1/100, no two-decimal fixed rendering can represent this
cell's value, so the cell does not use two-decimal fixed formatting
under any reading. -/
theorem C5_counterexample :
    calculate_scores c5responses = some c5scores ∧
    List.lookup "Overall Score" (exportRow c5a) = some (Cell.num (13 / 3)) ∧
    ¬ ∃ n : ℤ, (13 / 3 : ℚ) = (n : ℚ) / 100 := by
  refine ⟨by with_unfolding_all decide, by with_unfolding_all decide, ?_⟩
  rintro ⟨n, hn⟩
  rw [div_eq_div_iff (by norm_num) (by norm_num)] at hn
  have hz : (13 * 100 : ℤ) = n * 3 := by exact_mod_cast hn
  omega

/-- Witness for C5 at a concrete one-entry history. -/
theorem C5_export_schema_witness :
    (export_to_csv [c5a])[0]? = some (exportRow c5a) ∧
      (exportRow c5a).map Prod.fst = expectedColumns ∧
      List.lookup "Date" (exportRow c5a) = some (pyValToCell c5a.date) :=
  ⟨(C5_export_schema [c5a] 0 c5a rfl).1,
   (C5_export_schema [c5a] 0 c5a rfl).2.1,
   (C5_export_schema [c5a] 0 c5a rfl).2.2.1⟩

/-- C4 evaluation at the failing input: exporting `c4history` writes
`"NA"` into the 24 unanswered question cells; `read_csv` turns those
cells into NaN; the rebuilt first row then raises inside
`calculate_scores` on `int(nan)` for likert question p2, so the import
returns failure and leaves the history empty instead of reproducing the
exported history. -/
theorem C4_roundtrip_failure :
    calculate_scores c4responses = some c4scores ∧
    import_from_csv c4history
        (some (csvRoundTripTable (export_to_csv c4history))) = (false, []) := by
  with_unfolding_all decide

/-- Counterexample to C10 as stated: p4 is absent from the stored
responses, export writes the literal "NA" into its cell, yet after the
round trip the reimported entry binds p4 to the float NaN — not to an
explicit "NA" answer — and its recomputed People score counts that NaN
as 0 (12/5 instead of the original 3). -/
theorem C10_counterexample :
    List.lookup "p4" c10responses = none ∧
    calculate_scores c10responses = some c10scores ∧
    c10import.1 = true ∧
    c10import.2.map (fun a => List.lookup "p4" a.responses) = [some PyVal.nan] ∧
    PyVal.nan ≠ PyVal.str "NA" ∧
    c10import.2.map (fun a => a.scores.getCat "people") = [some (12 / 5)] ∧
    c10scores.getCat "people" = some 3 := by
  with_unfolding_all decide

/-- C10 (amended): export writes the literal string "NA" into the
question cell both when the question is absent and when it is answered
"NA", so the table does not distinguish the two; but `read_csv` maps
that cell to NaN, so after import such a question reappears as a key
bound to NaN rather than as an explicit "NA" answer (concretely: the
reimported p4 of `c10history` is NaN and is scored 0 instead of being
excluded), and a history whose NA cells fall on a likert question does
not import at all. -/
theorem C10_na_cells :
    (∀ (a : Assessment) (p : String × Category) (q : Question),
        p ∈ CATEGORIES → q ∈ p.2.questions →
        (List.lookup q.id a.responses = none ∨
            List.lookup q.id a.responses = some (PyVal.str "NA")) →
        List.lookup (questionCol p.2 q) (exportRow a) = some (Cell.str "NA")) ∧
    csvReadCell (Cell.str "NA") = PyVal.nan ∧
    PyVal.nan ≠ PyVal.str "NA" ∧
    (c10import.2.map (fun a => List.lookup "p4" a.responses) = [some PyVal.nan] ∧
      c10import.2.map (fun a => a.scores.getCat "people") = [some (12 / 5)]) ∧
    (import_from_csv c4history
        (some (csvRoundTripTable (export_to_csv c4history)))).1 = false := by
  refine ⟨?_, rfl, by decide, by with_unfolding_all decide,
          by with_unfolding_all decide⟩
  intro a p q hp hq hna
  rw [exportRow_question_cell a p hp q hq]
  rcases hna with h | h <;> rw [h] <;> rfl

/-- Witness for C10 at the concrete entry `c10a` and question p4. -/
theorem C10_na_cells_witness :
    List.lookup (questionCol (CATEGORIES[0]!).2 ((CATEGORIES[0]!).2.questions[3]!))
        (exportRow c10a) = some (Cell.str "NA") :=
  C10_na_cells.1 c10a (CATEGORIES[0]!) ((CATEGORIES[0]!).2.questions[3]!)
    (by with_unfolding_all decide) (by with_unfolding_all decide)
    (Or.inl (by with_unfolding_all decide))
